import Mathlib

/-!
Verification of the METAR/TAF decoding core of `utils/weather.py`,
(`parse_weather`, `parse_clouds`, `parse_metar`) as a shallow embedding.
Python strings are modelled as Lean `String`/`List Char`; JSON numeric
fields are modelled as `Int` where their fractional part is never
observed by the properties under study; the record passed to
`parse_metar` is modelled as a structure of optional fields mirroring
the `dict.get` defaults used by the source.
-/

/-- MODIFIERS table of `weather.py` (intensity / descriptor / proximity codes). -/
def MODIFIERS : List (String × String) :=
  [("-", "轻微"), ("", ""), ("+", "强"), ("VC", "附近"), ("MI", "浅"),
   ("BC", "散片"), ("PR", "部分"), ("DR", "低吹"), ("BL", "高吹"),
   ("SH", "阵性"), ("TS", "雷暴"), ("FZ", "冻")]

/-- WEATHER_PHENOMENA table of `weather.py` (2-letter phenomenon codes). -/
def WEATHER_PHENOMENA : List (String × String) :=
  [("DZ", "毛毛雨"), ("RA", "雨"), ("SN", "雪"), ("SG", "米雪"),
   ("IC", "冰针"), ("PE", "冰粒"), ("GR", "冰雹"), ("GS", "小冰粒"),
   ("BR", "轻雾"), ("FG", "雾"), ("FU", "烟"), ("VA", "火山灰"),
   ("DU", "浮尘"), ("SA", "沙"), ("HZ", "霾"),
   ("PO", "尘卷风"), ("FC", "漏斗云"), ("DS", "尘暴"), ("SQ", "飑"),
   ("SS", "沙暴")]

/-- CLOUD_COVER table of `weather.py`. -/
def CLOUD_COVER : List (String × String) :=
  [("FEW", "少云(1-2/8)"), ("SCT", "疏云(3-4/8)"), ("BKN", "多云(5-7/8)"),
   ("OVC", "阴天(8/8)"), ("SKC", "晴空"), ("NSC", "无重要云"),
   ("CLR", "无云"), ("NCD", "无云")]

/-- CLOUD_TYPES table of `weather.py`. -/
def CLOUD_TYPES : List (String × String) :=
  [("TCU", "塔状积云"), ("CB", "积雨云")]

/-- FLT_CAT table of `weather.py`: code to (label, severity emoji). -/
def FLT_CAT : List (String × (String × String)) :=
  [("VFR", ("VFR 目视", "🟢")), ("MVFR", ("MVFR 边缘", "🔵")),
   ("IFR", ("IFR 仪表", "🔴")), ("LIFR", ("LIFR 低仪表", "🟣"))]

/-- Exact-key association-list lookup, modelling Python `dict` lookup on the
constant tables above (all their keys are distinct). -/
def tlookup {α : Type} (t : List (String × α)) (k : String) : Option α :=
  match t with
  | [] => none
  | (a, b) :: r => if a = k then some b else tlookup r k

/-- The ordered alternatives of the modifier-extraction regex
`^(VC|MI|BC|PR|DR|BL|SH|TS|FZ|\+|-)?(.*)$` at line 111 of `weather.py`. -/
def modifierToks : List String :=
  ["VC", "MI", "BC", "PR", "DR", "BL", "SH", "TS", "FZ", "+", "-"]

/-- `startsWithChars pre l` is true when `pre` is a leading segment of `l`
(character-level model of a regex alternative matching at position 0). -/
def startsWithChars : List Char → List Char → Bool
  | [], _ => true
  | _ :: _, [] => false
  | a :: as, b :: bs => a = b && startsWithChars as bs

/-- The optional leading modifier group of the regex: the first alternative
(in the order of the regex alternatives) that matches at the front is consumed; when none
matches the group is empty and the whole string is the remainder
(`group(1) or ""` / `group(2)` in the source). -/
def splitModifier (l : List Char) : String × List Char :=
  match modifierToks.find? (fun t => startsWithChars t.toList l) with
  | some t => (t, l.drop t.toList.length)
  | none => ("", l)

/-- One step of the tokenizing loop at lines 128-161 of `weather.py`, with
explicit fuel (the loop consumes 2 or 3 characters per iteration, so fuel
equal to the length of the remainder always suffices; `parseLoopF_fuel_eq` below
proves fuel irrelevance).  A 3-character table match is tried first, then a
2-character match; if neither matches the untouched remainder is appended
as a literal token and the loop stops.  The descriptor-detection `for` loop
at lines 151-157 of the source binds no observable state (its only action
is `break`) and is therefore not represented. -/
def parseLoopF : Nat → List Char → List String
  | _, [] => []
  | 0, c :: l => [(c :: l).asString]
  | f + 1, c :: l =>
    match (if 3 ≤ (c :: l).length
           then tlookup WEATHER_PHENOMENA (String.mk ((c :: l).take 3))
           else none) with
    | some v => v :: parseLoopF f ((c :: l).drop 3)
    | none =>
      match (if 2 ≤ (c :: l).length
             then tlookup WEATHER_PHENOMENA (String.mk ((c :: l).take 2))
             else none) with
      | some v => v :: parseLoopF f ((c :: l).drop 2)
      | none => [(c :: l).asString]

/-- The tokenizing `while remaining:` loop of `parse_weather`. -/
def parseLoop (rem : List Char) : List String :=
  parseLoopF rem.length rem

/-- True when the list ends with a newline character (used to model `$` of
the Python regex, which may absorb one trailing newline). -/
def endsNl (l : List Char) : Bool :=
  match l.getLast? with
  | some c => c = '\n'
  | none => false

/-- `parse_weather` of `weather.py` (spec name: `decode_phenomena`): empty
input yields empty output; a whole-string key of WEATHER_PHENOMENA is
translated directly; otherwise an optional leading modifier is split off,
the remainder is tokenized greedily (3-character match before 2-character
match, literal fallback), and the pieces are concatenated with no
separator; when tokenization produced nothing the input is returned
unchanged.  Regex fidelity: in Python, `.` does not match a newline and
`$` also matches just before one single trailing newline, so an input with
an interior newline fails `re.match` and is returned unchanged (line 113),
while one trailing newline is silently dropped from the remainder. -/
def parse_weather (wx : String) : String :=
  if wx = "" then ""
  else
    match tlookup WEATHER_PHENOMENA wx with
    | some v => v
    | none =>
      let l := wx.toList
      let core := if endsNl l then l.dropLast else l
      if core.contains '\n' then wx
      else
        let pr := splitModifier core
        let pfxCn := (tlookup MODIFIERS pr.1).getD ""
        let phen := parseLoop pr.2
        if pfxCn ≠ "" ∧ phen ≠ [] then pfxCn ++ String.join phen
        else if phen ≠ [] then String.join phen
        else wx


/-- Numeric value of a decimal digit character. -/
def digitVal (c : Char) : Nat := c.toNat - 48

/-- Value of a list of decimal digit characters. -/
def digitsVal (l : List Char) : Nat :=
  l.foldl (fun a c => 10 * a + digitVal c) 0

/-- Python whitespace characters stripped by `int(str)`. -/
def isPySpace (c : Char) : Bool :=
  c = ' ' || c = '\t' || c = '\n' || c = '\x0d' || c = '\x0b' || c = '\x0c'

/-- Strip leading and trailing whitespace (model of the stripping done by
Python `int(...)` on its string argument). -/
def pyStrip (l : List Char) : List Char :=
  ((l.dropWhile isPySpace).reverse.dropWhile isPySpace).reverse

/-- Model of Python `int(s)` on a string: optional sign followed by one or
more decimal digits, surrounding whitespace ignored; `none` models the
`ValueError` branch.  (Underscore digit separators, accepted by CPython,
are not modelled; no input in this development uses them.) -/
def pyInt (s : String) : Option Int :=
  match pyStrip s.toList with
  | '+' :: r =>
    if r ≠ [] ∧ r.all Char.isDigit then some (Int.ofNat (digitsVal r)) else none
  | '-' :: r =>
    if r ≠ [] ∧ r.all Char.isDigit then some (-(Int.ofNat (digitsVal r))) else none
  | r =>
    if r ≠ [] ∧ r.all Char.isDigit then some (Int.ofNat (digitsVal r)) else none

/-- Round `num / den` (with `den > 0`) to the nearest integer, ties to even:
the rounding used by Python `format(x, ".0f")`, applied here to the exact
rational value.  (CPython rounds the IEEE double nearest to the rational;
the two agree on every value this development evaluates.) -/
def roundHalfEvenDiv (num den : Int) : Int :=
  let q := Int.fdiv num den
  let r := num - q * den
  if 2 * r > den then q + 1
  else if 2 * r < den then q
  else if Int.emod q 2 = 0 then q else q + 1

/-- The meters figure of the height clause at line 201 of `weather.py`:
`f"...({base_int * 0.3048:.0f}m)"`, i.e. `base_int * 0.3048` rounded to an
integer.  Note the source multiplies the raw base value by `0.3048`
directly, without the ×100 hectofeet-to-feet step announced by its own
comments at lines 195 and 200. -/
def cloudHeightMeters (b : Int) : Int :=
  roundHalfEvenDiv (b * 3048) 10000

/-- One cloud-layer record, mirroring the `c.get("cover", "")`,
`c.get("base", "")`, `c.get("cloudType", "")` accesses: a missing field and
an empty string are indistinguishable to the source. -/
structure CloudLayer where
  cover : String := ""
  base : String := ""
  cloudType : String := ""
deriving DecidableEq

/-- The per-layer body of `parse_clouds` (lines 187-214 of `weather.py`):
coverage translated (falling back to the raw code), an optional height
clause (converted when the base parses as an integer, verbatim otherwise),
and an optional special-type clause, looked up first by the explicit type
field and then by the coverage code. -/
def parse_cloudLayer (c : CloudLayer) : String :=
  let coverCn := (tlookup CLOUD_COVER c.cover).getD c.cover
  let heightStr :=
    if c.base ≠ "" ∧ c.base ≠ "N/A" then
      match pyInt c.base with
      | some b => " 云底 " ++ toString b ++ "ft (" ++ toString (cloudHeightMeters b) ++ "m)"
      | none => " 云底 " ++ c.base
    else ""
  let typeStr :=
    match tlookup CLOUD_TYPES c.cloudType with
    | some t => " " ++ t
    | none =>
      match tlookup CLOUD_TYPES c.cover with
      | some t => " " ++ t
      | none => ""
  coverCn ++ heightStr ++ typeStr

/-- `parse_clouds` of `weather.py`: the fixed no-clouds text on an empty
list, otherwise the per-layer strings joined by `" / "` in input order. -/
def parse_clouds (cs : List CloudLayer) : String :=
  if cs = [] then "无云"
  else String.intercalate " / " (cs.map parse_cloudLayer)


/-- Wind direction as delivered by the aviationweather JSON: either a
numeric bearing or the literal string "VRB" (compared against at line 287
of `weather.py`). -/
inductive WDir where
  | vrb : WDir
  | deg : Int → WDir
deriving DecidableEq

/-- The decoded METAR record consumed by `parse_metar`, mirroring the
`metar_data.get(...)` accesses of `weather.py`: a `none`/default value
stands for an absent key (the `"N/A"`, `""` or `[]` defaults of the source).
Numeric JSON fields are modelled as `Int`; `altim` is the pressure in
hundredths of inHg (the source formats the raw value with `:.2f`, so only
two decimals are ever observable). -/
structure WeatherRecord where
  rawOb : String := ""
  icaoId : Option String := none
  name : Option String := none
  reportTime : Option String := none
  wdir : Option WDir := none
  wspd : Option Int := none
  wgst : Option Int := none
  visib : Option String := none
  wxString : String := ""
  clouds : List CloudLayer := []
  temp : Option Int := none
  dewp : Option Int := none
  altim : Option Int := none
  fltCat : String := ""
deriving DecidableEq

/-- Model of `reportTime.replace("Z", "+00:00")` (line 278): every `Z` is
replaced, left to right. -/
def replaceZ : List Char → List Char
  | [] => []
  | c :: r =>
    if c = 'Z' then '+' :: '0' :: '0' :: ':' :: '0' :: '0' :: replaceZ r
    else c :: replaceZ r

/-- Model of `datetime.fromisoformat(...)` followed by
`strftime("%Y-%m-%d %H:%M UTC")` (lines 276-279): accepts the common
`YYYY-MM-DD[T ]HH:MM[...]` shape with in-range fields and re-emits the
date and minute fields with a literal `UTC` marker; `none` models the
`ValueError` caught by the surrounding bare `except` (which keeps the raw
value).  Calendar-exact day validation and the rarer ISO-8601 forms are
not modelled; no claim in this development depends on them. -/
def reformatTime (s : String) : Option String :=
  match replaceZ s.toList with
  | y1 :: y2 :: y3 :: y4 :: '-' :: m1 :: m2 :: '-' :: d1 :: d2 ::
      sep :: h1 :: h2 :: ':' :: n1 :: n2 :: rest =>
    let mv := 10 * digitVal m1 + digitVal m2
    let dv := 10 * digitVal d1 + digitVal d2
    let hv := 10 * digitVal h1 + digitVal h2
    let nv := 10 * digitVal n1 + digitVal n2
    if ([y1, y2, y3, y4, m1, m2, d1, d2, h1, h2, n1, n2].all Char.isDigit)
        ∧ (sep = 'T' ∨ sep = ' ')
        ∧ 1 ≤ mv ∧ mv ≤ 12 ∧ 1 ≤ dv ∧ dv ≤ 31 ∧ hv ≤ 23 ∧ nv ≤ 59
        ∧ (rest = [] ∨ rest.head? = some ':' ∨ rest.head? = some '+'
            ∨ rest.head? = some '-' ∨ rest.head? = some '.')
    then some (String.mk [y1, y2, y3, y4, '-', m1, m2, '-', d1, d2, ' ',
                          h1, h2, ':', n1, n2] ++ " UTC")
    else none
  | _ => none

/-- The gust suffix of the wind line (line 292 of `weather.py`):
`f" 阵风 {gust}kt" if gust else ""` — `gust` defaults to `""` when the
`wgst` key is absent, and Python truthiness makes a present value of `0`
behave like an absent one. -/
def gustClause : Option Int → String
  | some g => if g = 0 then "" else " 阵风 " ++ toString g ++ "kt"
  | none => ""

/-- The wind phrase of `parse_metar` (lines 284-293 of `weather.py`):
"风向不定" for the variable sentinel, "无风" when direction or speed is
absent, otherwise `<direction>°/<speed>kt` plus the gust suffix. -/
def windText (r : WeatherRecord) : String :=
  match r.wdir with
  | some WDir.vrb => "风向不定"
  | none => "无风"
  | some (WDir.deg d) =>
    match r.wspd with
    | none => "无风"
    | some spd => toString d ++ "°/" ++ toString spd ++ "kt" ++ gustClause r.wgst

/-- Model of `re.search(r"A(\d{4})", raw_ob)` (line 321): the leftmost
position at which a literal `A` is immediately followed by four decimal
digits; the `int` value of the captured group is returned. -/
def searchA4 : List Char → Option Nat
  | [] => none
  | c :: rest =>
    if c = 'A' ∧ 4 ≤ rest.length ∧ (rest.take 4).all Char.isDigit
    then some (digitsVal (rest.take 4))
    else searchA4 rest

/-- Format a count of hundredths as a decimal with exactly two fractional
digits, the observable behavior of Python `f"{x:.2f}"` on the exact
values this development evaluates. -/
def fmtHundredths (n : Int) : String :=
  let m := n.natAbs
  (if n < 0 then "-" else "")
    ++ toString (m / 100) ++ "."
    ++ (if m % 100 < 10 then "0" else "") ++ toString (m % 100)

/-- The pressure string of `parse_metar` (lines 317-327 of `weather.py`):
the primary value with an `inHg` suffix and, when the raw report embeds an
`A`-plus-four-digits group, that group reformatted as hundredths after the
letter tag. -/
def altimText (a : Int) (rawOb : String) : String :=
  match searchA4 rawOb.toList with
  | some us => fmtHundredths a ++ " inHg A" ++ fmtHundredths (Int.ofNat us)
  | none => fmtHundredths a ++ " inHg"

/-- The `lines` list assembled by `parse_metar` (lines 329-362 of
`weather.py`): the raw-report line only when raw text is present; the
station, time, wind and visibility lines unconditionally (with `N/A` /
"无风" sentinels); the weather line only for a non-empty phenomena code;
the cloud line unconditionally; temperature, dew point and pressure lines
only when present; the flight-category line only for a known category
code. -/
def parse_metarLines (r : WeatherRecord) : List String :=
  let icao := r.icaoId.getD "N/A"
  let name := r.name.getD "N/A"
  let rt0 := r.reportTime.getD "N/A"
  let rt := if rt0 ≠ "N/A" then (reformatTime rt0).getD rt0 else rt0
  let vis := match r.visib with
    | none => "N/A"
    | some v => v ++ " statute miles"
  let wx := if r.wxString ≠ "" then parse_weather r.wxString else ""
  (if r.rawOb ≠ "" then ["📄 原始报文: " ++ r.rawOb] else [])
    ++ ["📍 " ++ name ++ " (" ++ icao ++ ")",
        "⏰ 观测时间: " ++ rt,
        "💨 风向风速: " ++ windText r,
        "👁️ 能见度: " ++ vis]
    ++ (if wx ≠ "" then ["🌤️ 天气: " ++ wx] else [])
    ++ ["☁️ 云量: " ++ parse_clouds r.clouds]
    ++ (match r.temp with
        | some t => ["🌡️ 温度: " ++ toString t ++ "°C"]
        | none => [])
    ++ (match r.dewp with
        | some t => ["💧 露点: " ++ toString t ++ "°C"]
        | none => [])
    ++ (match r.altim with
        | some a => ["📊 气压: " ++ altimText a r.rawOb]
        | none => [])
    ++ (if r.fltCat ≠ "" then
          match tlookup FLT_CAT r.fltCat with
          | some p => ["✈️ 运行标准: " ++ p.2 ++ " " ++ p.1]
          | none => []
        else [])

/-- The body of the `try:` block of `parse_metar`: in this typed embedding
every operation the block performs is total, so the body always returns
normally; an `error` value models an uncaught Python exception escaping
the block. -/
def parse_metarE (r : WeatherRecord) : Except String String :=
  Except.ok (String.intercalate "\n" (parse_metarLines r))

/-- `parse_metar` of `weather.py` (spec name: `format_report`): the try
result of the try block, with any escaping exception converted by the
`except Exception` handler at lines 366-367 into the generic
`解析失败: ...` message. -/
def parse_metar (r : WeatherRecord) : String :=
  match parse_metarE r with
  | Except.ok s => s
  | Except.error e => "解析失败: " ++ e

/-- Fuel irrelevance for the tokenizing loop: any fuel at least the length
of the remainder computes the same token list (each iteration consumes 2
or 3 characters but only one unit of fuel). -/
theorem parseLoopF_fuel_eq : ∀ (f₁ f₂ : Nat) (rem : List Char),
    rem.length ≤ f₁ → rem.length ≤ f₂ → parseLoopF f₁ rem = parseLoopF f₂ rem := by
  intro f₁
  induction f₁ with
  | zero =>
    intro f₂ rem h₁ _
    have hr : rem = [] := List.length_eq_zero.mp (Nat.le_zero.mp h₁)
    subst hr
    cases f₂ <;> rfl
  | succ g ih =>
    intro f₂ rem h₁ h₂
    cases rem with
    | nil => cases f₂ <;> rfl
    | cons c l =>
      cases f₂ with
      | zero => simp only [List.length_cons] at h₂; omega
      | succ h =>
        have hlg : l.length ≤ g := by simpa using h₁
        have hlh : l.length ≤ h := by simpa using h₂
        simp only [parseLoopF]
        cases hv3 : (if 3 ≤ (c :: l).length
            then tlookup WEATHER_PHENOMENA (String.mk ((c :: l).take 3))
            else none) with
        | some v =>
          simp only [hv3]
          congr 1
          exact ih h ((c :: l).drop 3)
            (by simp only [List.length_drop, List.length_cons]; omega)
            (by simp only [List.length_drop, List.length_cons]; omega)
        | none =>
          simp only [hv3]
          cases hv2 : (if 2 ≤ (c :: l).length
              then tlookup WEATHER_PHENOMENA (String.mk ((c :: l).take 2))
              else none) with
          | some v =>
            simp only [hv2]
            congr 1
            exact ih h ((c :: l).drop 2)
              (by simp only [List.length_drop, List.length_cons]; omega)
              (by simp only [List.length_drop, List.length_cons]; omega)
          | none => simp only [hv2]


/-- C1 counterexample: `parse_weather "+TSRA"` is NOT the modifier
translation of `+` followed by the translations of `TS` and `RA`
("强" ++ "雷暴" ++ "雨"): `TS` is a key of MODIFIERS, not of
WEATHER_PHENOMENA, so the tokenizing loop matches neither `TSR` nor `TS`
and appends the untouched remainder literally, giving "强TSRA". -/
theorem C1_counterexample :
    parse_weather "+TSRA" = "强TSRA" ∧
    parse_weather "+TSRA" ≠ "强" ++ "雷暴" ++ "雨" := by
  constructor
  · decide
  · decide

/-- C1 amended: `parse_weather "+TSRA"` returns the MODIFIERS translation
of `+` immediately followed by the literal remainder `TSRA` (the
descriptor-detecting branch at lines 151-157 recognizes the `TS`+`RA`
combination but consumes nothing, so the fallback appends the remainder
unchanged). -/
theorem C1_amended_literal_fallback :
    parse_weather "+TSRA" = (tlookup MODIFIERS "+").getD "" ++ "TSRA" := by decide

/-- C2: evaluation of `parse_clouds` at the failing input
`[{cover := "BKN", base := "050"}]`: the code emits "50ft (15m)", treating
the hectofeet count 50 as a feet value, instead of the "5000ft (1524m)"
that its own comments (lines 195, 200: base is in hundreds of feet) and
the spec require. -/
theorem C2_hectofeet_not_scaled :
    parse_clouds [⟨"BKN", "050", ""⟩] = "多云(5-7/8) 云底 50ft (15m)" ∧
    parse_clouds [⟨"BKN", "050", ""⟩] ≠ "多云(5-7/8) 云底 5000ft (1524m)" := by
  constructor
  · decide
  · decide

/-- C3 counterexample: on a record holding only station name and code,
`parse_metar` emits five lines, not two: the time, wind and visibility
lines are inside the unconditional `lines.extend` at lines 335-342 and
appear with their sentinel texts. -/
theorem C3_counterexample :
    (parse_metarLines { name := some "X", icaoId := some "K" }).length ≠ 2 ∧
    parse_metar { name := some "X", icaoId := some "K" } =
      "📍 X (K)\n⏰ 观测时间: N/A\n💨 风向风速: 无风\n👁️ 能见度: N/A\n☁️ 云量: 无云" := by
  constructor
  · decide
  · decide

/-- C3 amended: for every record containing only station name and station
code, `parse_metar` produces exactly five lines: the station line, the
time line with the `N/A` sentinel, the wind line "无风", the visibility
line with the `N/A` sentinel, and the cloud line "无云"; all other lines
are omitted because their source fields are absent. -/
theorem C3_amended_five_lines (n i : String) :
    parse_metarLines { name := some n, icaoId := some i } =
      ["📍 " ++ n ++ " (" ++ i ++ ")", "⏰ 观测时间: N/A", "💨 风向风速: 无风",
       "👁️ 能见度: N/A", "☁️ 云量: 无云"] := rfl

/-- C4 counterexample: a record whose gust field is present with value 0
gets no gust clause (Python truthiness of `gust` at line 292), so "gust
clause if and only if a gust value is present" fails: the wind text is
exactly "180°/10kt" with no "阵风" segment. -/
theorem C4_counterexample :
    ({ wdir := some (WDir.deg 180), wspd := some 10, wgst := some 0 :
        WeatherRecord }).wgst ≠ none ∧
    windText { wdir := some (WDir.deg 180), wspd := some 10, wgst := some 0 } =
      "180°/10kt" ∧
    "💨 风向风速: 180°/10kt" ∈
      parse_metarLines { wdir := some (WDir.deg 180), wspd := some 10, wgst := some 0 } := by
  refine ⟨by decide, by decide, by decide⟩

/-- C4 amended: when wind direction (non-variable) and speed are present,
the wind text is `<direction>°/<speed>kt` followed by the gust clause,
where the gust clause is empty when the gust field is absent OR present
with value 0, and is ` 阵风 <gust>kt` for any nonzero gust value. -/
theorem C4_amended_gust_clause (r : WeatherRecord) (d s : Int)
    (h₁ : r.wdir = some (WDir.deg d)) (h₂ : r.wspd = some s) :
    windText r = toString d ++ "°/" ++ toString s ++ "kt" ++ gustClause r.wgst ∧
    gustClause none = "" ∧ gustClause (some 0) = "" ∧
    (∀ g : Int, g ≠ 0 → gustClause (some g) = " 阵风 " ++ toString g ++ "kt") := by
  refine ⟨?_, rfl, by decide, ?_⟩
  · unfold windText
    rw [h₁, h₂]
  · intro g hg
    simp only [gustClause, if_neg hg]

/-- C4 witness: the amended statement instantiated at a concrete record
with direction 270, speed 8 and no gust field, and at gust value 5. -/
theorem C4_witness :
    windText { wdir := some (WDir.deg 270), wspd := some 8 } =
      toString (270 : Int) ++ "°/" ++ toString (8 : Int) ++ "kt" ++
        gustClause ({ wdir := some (WDir.deg 270), wspd := some 8 :
          WeatherRecord }).wgst ∧
    gustClause (some 5) = " 阵风 " ++ toString (5 : Int) ++ "kt" := by
  have h := C4_amended_gust_clause
    { wdir := some (WDir.deg 270), wspd := some 8 } 270 8 rfl rfl
  exact ⟨h.1, h.2.2.2 5 (by decide)⟩

/-- C5: for every key-value pair of the WEATHER_PHENOMENA table,
`parse_weather` applied to the key alone returns exactly the translation
of the table (the whole-string lookup at lines 104-105 fires first). -/
theorem C5_table_codes_direct : ∀ p ∈ WEATHER_PHENOMENA, parse_weather p.1 = p.2 := by
  decide

/-- C5 witness: instantiation at the table entry ("RA", "雨"). -/
theorem C5_witness : ("RA", "雨") ∈ WEATHER_PHENOMENA ∧ parse_weather "RA" = "雨" :=
  ⟨by decide, C5_table_codes_direct ("RA", "雨") (by decide)⟩

/-- C6: whenever the tokenizing loop reaches a non-empty remainder whose
first 3 characters and first 2 characters are both absent from
WEATHER_PHENOMENA, the whole untouched remainder is appended as one
literal token and tokenization terminates; in particular
`parse_weather "ZZZZ"` returns "ZZZZ" unchanged. -/
theorem C6_unmatched_remainder_literal :
    (∀ rem : List Char, rem ≠ [] →
      tlookup WEATHER_PHENOMENA (String.mk (rem.take 3)) = none →
      tlookup WEATHER_PHENOMENA (String.mk (rem.take 2)) = none →
      parseLoop rem = [rem.asString]) ∧
    parse_weather "ZZZZ" = "ZZZZ" := by
  constructor
  · intro rem hne h3 h2
    cases rem with
    | nil => exact absurd rfl hne
    | cons c l =>
      show parseLoopF (c :: l).length (c :: l) = _
      simp only [List.length_cons, parseLoopF, h3, h2, ite_self]
  · decide

/-- C6 witness: instantiation at the remainder `ZZZZ`. -/
theorem C6_witness :
    tlookup WEATHER_PHENOMENA (String.mk ((['Z', 'Z', 'Z', 'Z'] : List Char).take 3)) = none ∧
    parseLoop ['Z', 'Z', 'Z', 'Z'] = [(['Z', 'Z', 'Z', 'Z'] : List Char).asString] :=
  ⟨by decide,
   C6_unmatched_remainder_literal.1 ['Z', 'Z', 'Z', 'Z'] (by decide) (by decide) (by decide)⟩

/-- C7: when the raw report text contains an `A`-plus-four-digits group
whose digits are 2992, the pressure string for the value 29.92 (2992
hundredths of inHg) is exactly "29.92 inHg A29.92", containing both the
primary "29.92 inHg" form and the second form "A29.92". -/
theorem C7_altimeter_cross (raw : String) (h : searchA4 raw.toList = some 2992) :
    altimText 2992 raw = "29.92 inHg A29.92" := by
  unfold altimText
  rw [h]
  decide

/-- C7 witness: instantiation at a realistic raw METAR containing `A2992`. -/
theorem C7_witness :
    searchA4 ("KJFK 121251Z 18010KT 10SM FEW050 15/10 A2992").toList = some 2992 ∧
    altimText 2992 "KJFK 121251Z 18010KT 10SM FEW050 15/10 A2992" = "29.92 inHg A29.92" :=
  ⟨by decide, C7_altimeter_cross _ (by decide)⟩

/-- C8: `parse_metar` always returns a string: its result is exactly the
outermost-boundary handler applied to the try-block body, which converts
any escaping error into the generic `解析失败: ` message; and in this
typed embedding the body never faults, so the caller always receives the
assembled report. -/
theorem C8_total_string_boundary :
    ∀ r : WeatherRecord,
      (parse_metar r = match parse_metarE r with
        | Except.ok s => s
        | Except.error e => "解析失败: " ++ e) ∧
      ∃ s, parse_metarE r = Except.ok s :=
  fun _ => ⟨rfl, ⟨_, rfl⟩⟩

/-- C9: `parse_metar` is deterministic: applied twice to the same record
value it yields identical strings (it is a pure function of the record
and the constant tables). -/
theorem C9_deterministic :
    ∀ r₁ r₂ : WeatherRecord, r₁ = r₂ → parse_metar r₁ = parse_metar r₂ :=
  fun _ _ h => congrArg parse_metar h

/-- C9 witness: instantiation at the empty record. -/
theorem C9_witness :
    ({} : WeatherRecord) = {} ∧
    parse_metar ({} : WeatherRecord) = parse_metar ({} : WeatherRecord) :=
  ⟨rfl, C9_deterministic {} {} rfl⟩

/-- C10: every iteration of the tokenizing loop on a non-empty remainder
either consumes 2 or 3 characters (strictly shrinking the remainder) or
appends the remainder as a literal token and stops, so the loop
terminates on every input. -/
theorem C10_loop_terminates :
    ∀ rem : List Char, rem ≠ [] →
      (∃ k t, (k = 3 ∨ k = 2) ∧ k ≤ rem.length ∧
        parseLoop rem = t :: parseLoop (rem.drop k) ∧
        (rem.drop k).length < rem.length) ∨
      parseLoop rem = [rem.asString] := by
  intro rem hne
  cases rem with
  | nil => exact absurd rfl hne
  | cons c l =>
    cases hv3 : (if 3 ≤ (c :: l).length
        then tlookup WEATHER_PHENOMENA (String.mk ((c :: l).take 3))
        else none) with
    | some v =>
      have h3 : 3 ≤ (c :: l).length := by
        by_contra hn
        rw [if_neg hn] at hv3
        exact Option.noConfusion hv3
      left
      refine ⟨3, v, Or.inl rfl, h3, ?_, ?_⟩
      · show parseLoopF (l.length + 1) (c :: l) = _
        simp only [parseLoopF, parseLoop, hv3]
        congr 1
        exact parseLoopF_fuel_eq l.length ((c :: l).drop 3).length ((c :: l).drop 3)
          (by simp only [List.length_drop, List.length_cons]; omega) le_rfl
      · simp only [List.length_drop, List.length_cons]
        omega
    | none =>
      cases hv2 : (if 2 ≤ (c :: l).length
          then tlookup WEATHER_PHENOMENA (String.mk ((c :: l).take 2))
          else none) with
      | some v =>
        have h2 : 2 ≤ (c :: l).length := by
          by_contra hn
          rw [if_neg hn] at hv2
          exact Option.noConfusion hv2
        left
        refine ⟨2, v, Or.inr rfl, h2, ?_, ?_⟩
        · show parseLoopF (l.length + 1) (c :: l) = _
          simp only [parseLoopF, parseLoop, hv3, hv2]
          congr 1
          exact parseLoopF_fuel_eq l.length ((c :: l).drop 2).length ((c :: l).drop 2)
            (by simp only [List.length_drop, List.length_cons]; omega) le_rfl
        · simp only [List.length_drop, List.length_cons]
          omega
      | none =>
        right
        show parseLoopF (l.length + 1) (c :: l) = _
        simp only [parseLoopF, hv3, hv2]

/-- C10 witness: instantiation at the remainder `RA`, which takes the
2-character-consuming branch. -/
theorem C10_witness :
    (['R', 'A'] : List Char) ≠ [] ∧
    ((∃ k t, (k = 3 ∨ k = 2) ∧ k ≤ (['R', 'A'] : List Char).length ∧
        parseLoop ['R', 'A'] = t :: parseLoop ((['R', 'A'] : List Char).drop k) ∧
        ((['R', 'A'] : List Char).drop k).length < (['R', 'A'] : List Char).length) ∨
      parseLoop ['R', 'A'] = [(['R', 'A'] : List Char).asString]) :=
  ⟨by decide, C10_loop_terminates ['R', 'A'] (by decide)⟩
